import Mathlib

/-!
Shallow embedding of the hugo-demo frontend: the `Dashboard` component
(src/frontend/src/components/Dashboard.jsx), the `App` shell and the
`ChatInterface` component.  Asynchronous fetches are modelled by passing
the (already settled) outcome of each network request as an explicit
`Option` argument; the component-local React state becomes an explicit
state record threaded through the handlers.
-/

namespace HugoDemo

/-! ## Dashboard data model (Dashboard.jsx) -/

/-- One alert row, as consumed from `/api/alerts` (fields `severity`,
`alert_type`, `message`, `action_required`). -/
structure Alert where
  severity : String
  alert_type : String
  message : String
  action_required : String
deriving DecidableEq, Repr

/-- The inventory-summary payload from `/api/inventory-summary`
(fields `low_stock_count`, `total_stock_value`). -/
structure InventorySummary where
  low_stock_count : Nat
  total_stock_value : Nat
deriving DecidableEq, Repr

/-- One stockout-risk row from `/api/stockout-risks`
(fields `description`, `days_until_stockout`, `urgency`). -/
structure RiskRow where
  description : String
  days_until_stockout : Int
  urgency : String
deriving DecidableEq, Repr

/-- One supplier row from `/api/supplier-performance`
(fields `Supplier_Name`, `On_Time_Rate`, `Lead_Time_Days`). -/
structure SupplierRow where
  Supplier_Name : String
  On_Time_Rate : Nat
  Lead_Time_Days : Nat
deriving DecidableEq, Repr

/-- The `data` state of the `Dashboard` component:
`useState({ alerts: [], inventory: null, stockoutRisks: [], suppliers: [], loading: true })`. -/
structure DashboardData where
  alerts : List Alert
  inventory : Option InventorySummary
  stockoutRisks : List RiskRow
  suppliers : List SupplierRow
  loading : Bool
deriving DecidableEq, Repr

/-- The initial `useState` value of `Dashboard`. -/
def initialDashboardData : DashboardData :=
  { alerts := [], inventory := none, stockoutRisks := [], suppliers := [], loading := true }

/-- The settled outcomes of the four dashboard requests issued by
`fetchDashboardData` via `Promise.all`: `none` models a rejected request,
`some` a fulfilled one carrying the field of the response body that the
component reads (`.alerts`, the whole summary, `.risks`, `.suppliers`). -/
structure FetchResults where
  alertsRes : Option (List Alert)
  invRes : Option InventorySummary
  risksRes : Option (List RiskRow)
  suppRes : Option (List SupplierRow)
deriving DecidableEq, Repr

/-- `fetchDashboardData` of Dashboard.jsx.  `Promise.all` fulfils only when
all four requests fulfil, in which case `setData` replaces the whole state
with the fresh payloads and `loading: false`; if any request rejects, the
`catch` branch runs `setData(prev => ({ ...prev, loading: false }))`. -/
def fetchDashboardData (r : FetchResults) (prev : DashboardData) : DashboardData :=
  match r.alertsRes, r.invRes, r.risksRes, r.suppRes with
  | some alerts, some inv, some risks, some supp =>
      { alerts := alerts, inventory := some inv, stockoutRisks := risks,
        suppliers := supp, loading := false }
  | _, _, _, _ => { prev with loading := false }

/-- `Promise.all([...])` fulfils exactly when every component promise does. -/
def allFetchesSucceed (r : FetchResults) : Bool :=
  r.alertsRes.isSome && r.invRes.isSome && r.risksRes.isSome && r.suppRes.isSome

/-- The `loading` values observed across one `refresh()` cycle: the value at
mount, then the value after the single `setData` call of either branch. -/
def refreshLoadingTrace (r : FetchResults) (prev : DashboardData) : List Bool :=
  [prev.loading, (fetchDashboardData r prev).loading]

/-- Number of `true → false` transitions in a boolean trace. -/
def fallCount : List Bool → Nat
  | true :: false :: rest => 1 + fallCount (false :: rest)
  | _ :: rest => fallCount rest
  | [] => 0

/-- The rows the stockout-risk table renders:
`data.stockoutRisks.slice(0, 6).map(...)` in Dashboard.jsx. -/
def renderedStockoutRows (d : DashboardData) : List RiskRow :=
  d.stockoutRisks.take 6

/-! ## App shell (health banner) -/

/-- The health payload from `/api/health`; the component only reads
`agents_initialized`. -/
structure HealthStatus where
  agents_initialized : Bool
deriving DecidableEq, Repr

/-- `useState(null)` for `status` in App. -/
def initialStatus : Option HealthStatus := none

/-- The mount effect of App: on a fulfilled health fetch, `setStatus(data)`;
on rejection the `catch` only logs, leaving `status` unchanged and throwing
nothing to the shell. -/
def healthEffect (res : Option HealthStatus) (status : Option HealthStatus) :
    Option HealthStatus :=
  match res with
  | some d => some d
  | none => status

/-- The banner condition in App:
`status && !status.agents_initialized`. -/
def bannerVisible (status : Option HealthStatus) : Bool :=
  match status with
  | some h => !h.agents_initialized
  | none => false

/-! ## ChatInterface (messages, input, loading, handleSend) -/

/-- `role` of a chat message. -/
inductive Role where
  | user
  | assistant
deriving DecidableEq, Repr

/-- One transcript entry.  `data` models the optional `data` field attached
to successful assistant replies (`undefined` becomes `none`); `error`
models the `error: true` flag of the fallback message (absent becomes
`false`); `timestamp` models `new Date()` as an opaque number. -/
structure ChatMessage where
  role : Role
  content : String
  data : Option String
  error : Bool
  timestamp : Nat
deriving DecidableEq, Repr

/-- The seed assistant greeting in the initial `useState` of the
`messages` state. -/
def seedGreeting : ChatMessage :=
  { role := .assistant
    content := "Hi! I\u0027m Hugo, your AI procurement assistant for Voltway. I can help you with inventory analysis, build capacity calculations, supplier performance, and more. What would you like to know?"
    data := none
    error := false
    timestamp := 0 }

/-- The fixed user-facing fallback text of the `catch` branch of
`handleSend`. -/
def chatErrorText : String :=
  "Sorry, I encountered an error processing your request. Please try again."

/-- Component-local state of `ChatInterface`: the `messages`, `input` and
`loading` `useState` hooks. -/
structure ChatState where
  messages : List ChatMessage
  input : String
  loading : Bool
deriving DecidableEq, Repr

/-- The initial `ChatInterface` state: one seed greeting, empty input, not
loading. -/
def initialChatState : ChatState :=
  { messages := [seedGreeting], input := "", loading := false }

/-- The settled outcome of the `axios.post('/api/chat', ...)` request:
fulfilled with `{ answer, data? }`, or rejected. -/
inductive ChatResult where
  | success (answer : String) (data : Option String)
  | failure
deriving DecidableEq, Repr

/-- Whitespace characters stripped from keyboard input by JS
`String.prototype.trim`. -/
def isTrimWhitespace (c : Char) : Bool :=
  c = ' ' || c = '\t' || c = '\n' || c = '\r'

/-- `input.trim()`: strip whitespace from both ends, modelled on the
character list of the string. -/
def jsTrim (s : String) : List Char :=
  ((s.toList.dropWhile isTrimWhitespace).reverse.dropWhile isTrimWhitespace).reverse

/-- The falsiness test `!input.trim()` of the guard: the trimmed string is
the empty string, i.e. the input is empty or whitespace-only. -/
def isBlank (s : String) : Bool :=
  (jsTrim s).isEmpty

/-- The guard at the top of `handleSend`:
`if (!input.trim() || loading) return;` — the send proceeds exactly when
the trimmed input is non-empty and no request is in flight. -/
def canSend (s : ChatState) : Bool :=
  !(isBlank s.input || s.loading)

/-- Number of `axios.post` requests one `handleSend` invocation issues from
state `s`: one when the guard passes, zero otherwise. -/
def chatRequestsIssued (s : ChatState) : Nat :=
  if canSend s then 1 else 0

/-- The `userMessage` object built by `handleSend` from the current input. -/
def userMessage (content : String) (t : Nat) : ChatMessage :=
  { role := .user, content := content, data := none, error := false, timestamp := t }

/-- The assistant message appended when the request settles: on success the
`assistantMessage` with `content: response.data.answer` and
`data: response.data.data`; on failure the `errorMessage` with the fixed
fallback text and `error: true`. -/
def assistantReply (res : ChatResult) (t : Nat) : ChatMessage :=
  match res with
  | .success answer d =>
      { role := .assistant, content := answer, data := d, error := false, timestamp := t }
  | .failure =>
      { role := .assistant, content := chatErrorText, data := none, error := true, timestamp := t }

/-- One complete `handleSend` invocation, with the settled request outcome
`res` and the timestamps of the two `new Date()` calls passed explicitly.
If the guard fails the state is returned untouched; otherwise the user
message is appended synchronously, the input cleared and `loading` set,
then on settlement the assistant reply is appended and the `finally` block
clears `loading`. -/
def handleSend (res : ChatResult) (tu ta : Nat) (s : ChatState) : ChatState :=
  if canSend s then
    let s1 : ChatState :=
      { s with messages := s.messages ++ [userMessage s.input tu],
               input := "", loading := true }
    { s1 with messages := s1.messages ++ [assistantReply res ta], loading := false }
  else s

/-- The externally triggered operations on the chat state: typing into the
textarea (or clicking an example question), both of which run `setInput`,
and a send cycle. -/
inductive ChatEvent where
  | setInput (text : String)
  | send (res : ChatResult) (tu ta : Nat)
deriving DecidableEq, Repr

/-- Apply one event to the chat state. -/
def chatStep (ev : ChatEvent) (s : ChatState) : ChatState :=
  match ev with
  | .setInput t => { s with input := t }
  | .send res tu ta => handleSend res tu ta s

/-- Run a sequence of events from a state. -/
def runChat (evs : List ChatEvent) (s : ChatState) : ChatState :=
  match evs with
  | [] => s
  | ev :: rest => runChat rest (chatStep ev s)

/-- Number of send cycles in `evs` (run from `s`) that pass the guard and
hence complete a request round trip. -/
def completedSends (evs : List ChatEvent) (s : ChatState) : Nat :=
  match evs with
  | [] => 0
  | ev :: rest =>
      (match ev with
       | .send _ _ _ => if canSend s then 1 else 0
       | .setInput _ => 0) + completedSends rest (chatStep ev s)

/-- The render condition of the example-question suggestions block:
`messages.length === 1 && ...`. -/
def suggestionsVisible (s : ChatState) : Bool :=
  s.messages.length == 1

/-! ## Concrete inputs used by counterexamples and witnesses -/

/-- A concrete alert used in the `refresh()` scenarios. -/
def c2alert : Alert :=
  { severity := "high", alert_type := "stockout", message := "Cells low", action_required := "Reorder" }

/-- A concrete inventory summary used in the `refresh()` scenarios. -/
def c2inventory : InventorySummary :=
  { low_stock_count := 3, total_stock_value := 100 }

/-- A concrete risk row used in the `refresh()` scenarios. -/
def c2risk : RiskRow :=
  { description := "Battery cells", days_until_stockout := 4, urgency := "High" }

/-- Fetch outcomes where `getSupplierPerformance` rejects and the other
three requests fulfil with fresh data. -/
def c2results : FetchResults :=
  { alertsRes := some [c2alert], invRes := some c2inventory,
    risksRes := some [c2risk], suppRes := none }

/-! ## Helper lemmas -/

/-- Both branches of `fetchDashboardData` set `loading` to `false`. -/
theorem fetchDashboardData_loading (r : FetchResults) (prev : DashboardData) :
    (fetchDashboardData r prev).loading = false := by
  obtain ⟨a, i, k, u⟩ := r
  cases a <;> cases i <;> cases k <;> cases u <;> rfl

/-- When the guard passes, `handleSend` appends the user message and then
the assistant reply. -/
theorem handleSend_messages (res : ChatResult) (tu ta : Nat) (s : ChatState)
    (h : canSend s = true) :
    (handleSend res tu ta s).messages =
      s.messages ++ [userMessage s.input tu, assistantReply res ta] := by
  simp [handleSend, h]

/-- When the guard passes, `handleSend` clears `loading`. -/
theorem handleSend_loading (res : ChatResult) (tu ta : Nat) (s : ChatState)
    (h : canSend s = true) :
    (handleSend res tu ta s).loading = false := by
  simp [handleSend, h]

/-- When the guard fails, `handleSend` is the identity. -/
theorem handleSend_id (res : ChatResult) (tu ta : Nat) (s : ChatState)
    (h : canSend s = false) :
    handleSend res tu ta s = s := by
  simp [handleSend, h]

/-- One `handleSend` grows the transcript by twice the number of requests
it issues: by two when the guard passes, by zero otherwise. -/
theorem handleSend_length (res : ChatResult) (tu ta : Nat) (s : ChatState) :
    (handleSend res tu ta s).messages.length =
      s.messages.length + 2 * chatRequestsIssued s := by
  by_cases h : canSend s = true
  · rw [handleSend_messages res tu ta s h]
    simp [chatRequestsIssued, h]
  · rw [handleSend_id res tu ta s (by simpa using h)]
    simp [chatRequestsIssued, h]

/-- Transcript length after a run: the start length plus two per completed
send cycle. -/
theorem runChat_messages_length (evs : List ChatEvent) :
    ∀ s : ChatState, (runChat evs s).messages.length =
      s.messages.length + 2 * completedSends evs s := by
  induction evs with
  | nil => intro s; simp [runChat, completedSends]
  | cons ev rest ih =>
    intro s
    cases ev with
    | setInput t =>
      simp only [runChat, completedSends, chatStep]
      rw [ih]
      simp
    | send res tu ta =>
      simp only [runChat, completedSends, chatStep]
      rw [ih, handleSend_length]
      simp [chatRequestsIssued]
      by_cases h : canSend s = true
      · simp [h]; ring
      · simp [h]

/-- Each step only appends to the transcript. -/
theorem chatStep_append (ev : ChatEvent) (s : ChatState) :
    ∃ t, s.messages ++ t = (chatStep ev s).messages := by
  cases ev with
  | setInput t => exact ⟨[], by simp [chatStep]⟩
  | send res tu ta =>
    by_cases h : canSend s = true
    · exact ⟨[userMessage s.input tu, assistantReply res ta],
        (handleSend_messages res tu ta s h).symm⟩
    · refine ⟨[], ?_⟩
      rw [chatStep, handleSend_id res tu ta s (by simpa using h)]
      simp

/-- A whole run only appends to the transcript. -/
theorem runChat_append (evs : List ChatEvent) :
    ∀ s : ChatState, ∃ t, s.messages ++ t = (runChat evs s).messages := by
  induction evs with
  | nil => intro s; exact ⟨[], by simp [runChat]⟩
  | cons ev rest ih =>
    intro s
    obtain ⟨t1, h1⟩ := chatStep_append ev s
    obtain ⟨t2, h2⟩ := ih (chatStep ev s)
    exact ⟨t1 ++ t2, by rw [← List.append_assoc, h1, h2, runChat]⟩

/-! ## Claim theorems -/

/-- C1: a `refresh()` commits a new snapshot exactly when all four
dashboard fetches succeed; when any of them fails, `loading` is still
cleared but `alerts`, `inventory`, `stockoutRisks` and `suppliers` all
keep their prior values. -/
theorem refresh_commits_iff_all_succeed (r : FetchResults) (prev : DashboardData) :
    (allFetchesSucceed r = true →
      ∃ al inv ri su,
        r.alertsRes = some al ∧ r.invRes = some inv ∧
        r.risksRes = some ri ∧ r.suppRes = some su ∧
        fetchDashboardData r prev =
          { alerts := al, inventory := some inv, stockoutRisks := ri,
            suppliers := su, loading := false }) ∧
    (allFetchesSucceed r = false →
      (fetchDashboardData r prev).loading = false ∧
      (fetchDashboardData r prev).alerts = prev.alerts ∧
      (fetchDashboardData r prev).inventory = prev.inventory ∧
      (fetchDashboardData r prev).stockoutRisks = prev.stockoutRisks ∧
      (fetchDashboardData r prev).suppliers = prev.suppliers) := by
  obtain ⟨a, i, k, u⟩ := r
  constructor
  · intro h
    cases a <;> cases i <;> cases k <;> cases u <;>
      simp_all [allFetchesSucceed, fetchDashboardData]
  · intro h
    cases a <;> cases i <;> cases k <;> cases u <;>
      simp_all [allFetchesSucceed, fetchDashboardData]

/-- Witness for C1 at a concrete failing fetch mix. -/
theorem refresh_commits_iff_all_succeed_witness :
    (fetchDashboardData c2results initialDashboardData).loading = false ∧
    (fetchDashboardData c2results initialDashboardData).suppliers =
      initialDashboardData.suppliers :=
  ⟨((refresh_commits_iff_all_succeed c2results initialDashboardData).2 (by decide)).1,
   ((refresh_commits_iff_all_succeed c2results initialDashboardData).2 (by decide)).2.2.2.2⟩

/-- C2 counterexample: with `getSupplierPerformance` failing and the other
three fetches succeeding with fresh data, the committed state does NOT
reflect the newly fetched alerts/inventory/risks — the `catch` branch
keeps every prior field. -/
theorem partial_commit_refuted :
    c2results.suppRes = none ∧
    c2results.alertsRes = some [c2alert] ∧
    c2results.invRes = some c2inventory ∧
    c2results.risksRes = some [c2risk] ∧
    ¬ ((fetchDashboardData c2results initialDashboardData).alerts = [c2alert] ∧
       (fetchDashboardData c2results initialDashboardData).inventory = some c2inventory ∧
       (fetchDashboardData c2results initialDashboardData).stockoutRisks = [c2risk]) := by
  refine ⟨rfl, rfl, rfl, rfl, ?_⟩
  intro h
  have : ([] : List Alert) = [c2alert] := h.1
  simp at this

/-- C2 (amended): when `getSupplierPerformance` fails, `loading` becomes
false, `suppliers` keeps its prior value, and `alerts`, `inventory` and
`stockoutRisks` also keep their prior values — no field reflects newly
fetched data. -/
theorem refresh_supplier_failure_keeps_all (r : FetchResults) (prev : DashboardData)
    (h : r.suppRes = none) :
    fetchDashboardData r prev = { prev with loading := false } := by
  obtain ⟨a, i, k, u⟩ := r
  cases u with
  | none => cases a <;> cases i <;> cases k <;> rfl
  | some _ => simp at h

/-- Witness for the amended C2 at the concrete fetch mix. -/
theorem refresh_supplier_failure_keeps_all_witness :
    fetchDashboardData c2results initialDashboardData =
      { initialDashboardData with loading := false } :=
  refresh_supplier_failure_keeps_all c2results initialDashboardData rfl

/-- C3: for every sequence of events starting from the initial chat state,
the transcript length is `1 + 2 × (completed send cycles)`; moreover a
single `handleSend` grows the transcript by exactly twice the number of
requests it issues (two on a completed cycle, zero otherwise), never
fewer and never more. -/
theorem transcript_length_law :
    (∀ evs : List ChatEvent,
      (runChat evs initialChatState).messages.length =
        1 + 2 * completedSends evs initialChatState) ∧
    (∀ (s : ChatState) (res : ChatResult) (tu ta : Nat),
      (handleSend res tu ta s).messages.length =
        s.messages.length + 2 * chatRequestsIssued s) := by
  constructor
  · intro evs
    rw [runChat_messages_length evs initialChatState]
    rfl
  · intro s res tu ta
    exact handleSend_length res tu ta s

/-- Witness for C3 at the empty event sequence. -/
theorem transcript_length_law_witness :
    (runChat [] initialChatState).messages.length =
      1 + 2 * completedSends [] initialChatState :=
  transcript_length_law.1 []

/-- C4: when a send passes the guard and its request completes, the session
returns to Idle (`loading = false`) and exactly one assistant message is
appended after the user message: on success its content is the returned
answer and its data the returned payload; on failure its content is the
fixed fallback text and its error flag is set. -/
theorem send_completion_appends_one_assistant (s : ChatState) (res : ChatResult)
    (tu ta : Nat) (h : canSend s = true) :
    (handleSend res tu ta s).loading = false ∧
    (handleSend res tu ta s).messages =
      s.messages ++ [userMessage s.input tu, assistantReply res ta] ∧
    (∀ a d, res = ChatResult.success a d →
      (assistantReply res ta).role = Role.assistant ∧
      (assistantReply res ta).content = a ∧
      (assistantReply res ta).data = d ∧
      (assistantReply res ta).error = false) ∧
    (res = ChatResult.failure →
      (assistantReply res ta).role = Role.assistant ∧
      (assistantReply res ta).content = chatErrorText ∧
      (assistantReply res ta).error = true) := by
  refine ⟨handleSend_loading res tu ta s h, handleSend_messages res tu ta s h, ?_, ?_⟩
  · intro a d hres
    subst hres
    exact ⟨rfl, rfl, rfl, rfl⟩
  · intro hres
    subst hres
    exact ⟨rfl, rfl, rfl⟩

/-- Witness for C4 at a concrete non-blank idle state with a failing
request. -/
theorem send_completion_appends_one_assistant_witness :
    (handleSend ChatResult.failure 1 2
      { messages := [seedGreeting], input := "hi", loading := false }).loading = false :=
  (send_completion_appends_one_assistant
    { messages := [seedGreeting], input := "hi", loading := false }
    ChatResult.failure 1 2 (by decide)).1

/-- C5: a send while a request is in flight, or with a blank input, is a
no-op: the whole state (transcript and pending-input buffer included) is
unchanged and no request is issued. -/
theorem send_noop_when_blocked (s : ChatState) (res : ChatResult) (tu ta : Nat)
    (h : s.loading = true ∨ isBlank s.input = true) :
    handleSend res tu ta s = s ∧ chatRequestsIssued s = 0 := by
  have hc : canSend s = false := by
    rcases h with h | h <;> simp [canSend, h]
  exact ⟨handleSend_id res tu ta s hc, by simp [chatRequestsIssued, hc]⟩

/-- Witness for C5: a re-entrant send while Awaiting is the identity. -/
theorem send_noop_when_blocked_witness :
    handleSend (ChatResult.success "a" none) 0 1
        { messages := [seedGreeting], input := "hi", loading := true } =
      { messages := [seedGreeting], input := "hi", loading := true } :=
  (send_noop_when_blocked
    { messages := [seedGreeting], input := "hi", loading := true }
    (ChatResult.success "a" none) 0 1 (Or.inl rfl)).1

/-- C6: per `refresh()` cycle, `loading` goes from `true` (its value from
mount until the cycle settles) to `false` exactly once, whatever the
outcome mix of the four fetches. -/
theorem loading_falls_exactly_once (r : FetchResults) (prev : DashboardData) :
    (fetchDashboardData r prev).loading = false ∧
    initialDashboardData.loading = true ∧
    fallCount (refreshLoadingTrace r initialDashboardData) = 1 := by
  refine ⟨fetchDashboardData_loading r prev, rfl, ?_⟩
  unfold refreshLoadingTrace
  rw [fetchDashboardData_loading r initialDashboardData]
  rfl

/-- Witness for C6 at a fetch mix where all four requests fail. -/
theorem loading_falls_exactly_once_witness :
    fallCount
      (refreshLoadingTrace { alertsRes := none, invRes := none, risksRes := none, suppRes := none }
        initialDashboardData) = 1 :=
  (loading_falls_exactly_once
    { alertsRes := none, invRes := none, risksRes := none, suppRes := none }
    initialDashboardData).2.2

/-- C7: the warning banner renders exactly when the health fetch succeeded
with `agents_initialized = false`; a failed fetch leaves `status` at
`null`, renders no banner and surfaces no error. -/
theorem banner_iff_agents_uninitialized (res : Option HealthStatus) :
    (bannerVisible (healthEffect res initialStatus) = true ↔
      ∃ h, res = some h ∧ h.agents_initialized = false) ∧
    (res = none →
      healthEffect res initialStatus = none ∧
      bannerVisible (healthEffect res initialStatus) = false) := by
  cases res with
  | none => simp [healthEffect, bannerVisible, initialStatus]
  | some h =>
    cases hh : h.agents_initialized <;>
      simp_all [healthEffect, bannerVisible, initialStatus]

/-- Witness for C7: a failed health fetch shows no banner. -/
theorem banner_iff_agents_uninitialized_witness :
    healthEffect none initialStatus = none ∧
    bannerVisible (healthEffect none initialStatus) = false :=
  (banner_iff_agents_uninitialized none).2 rfl

/-- C8: the example-question suggestions render exactly when the transcript
length is 1; they are visible in the initial seed state, and once hidden
they stay hidden for the rest of the session. -/
theorem suggestions_iff_seed_transcript :
    (∀ s : ChatState, suggestionsVisible s = true ↔ s.messages.length = 1) ∧
    suggestionsVisible initialChatState = true ∧
    (∀ (s : ChatState) (evs : List ChatEvent),
      suggestionsVisible s = false → suggestionsVisible (runChat evs s) = false) := by
  refine ⟨?_, rfl, ?_⟩
  · intro s
    simp [suggestionsVisible]
  · intro s evs h
    have hlen : s.messages.length ≠ 1 := by
      simpa [suggestionsVisible] using h
    have := runChat_messages_length evs s
    simp only [suggestionsVisible, beq_eq_false_iff_ne, ne_eq]
    rw [this]
    omega

/-- Witness for C8: suggestions stay hidden after an exchange. -/
theorem suggestions_iff_seed_transcript_witness :
    suggestionsVisible
      (runChat [] { messages := [seedGreeting, seedGreeting], input := "", loading := false }) =
      false :=
  suggestions_iff_seed_transcript.2.2
    { messages := [seedGreeting, seedGreeting], input := "", loading := false } []
    (by rfl)

/-- C9: every chat operation only appends to the transcript (the old
transcript is a prefix of the new one, so no message is modified or
deleted), and from the seeded initial state the transcript is never
empty. -/
theorem transcript_append_only_and_nonempty :
    (∀ (s : ChatState) (ev : ChatEvent),
      ∃ t, s.messages ++ t = (chatStep ev s).messages) ∧
    (∀ evs : List ChatEvent, (runChat evs initialChatState).messages ≠ []) := by
  refine ⟨fun s ev => chatStep_append ev s, ?_⟩
  intro evs
  obtain ⟨t, ht⟩ := runChat_append evs initialChatState
  intro hnil
  rw [hnil] at ht
  simp [initialChatState] at ht

/-- Witness for C9 at the empty event sequence. -/
theorem transcript_append_only_and_nonempty_witness :
    (runChat [] initialChatState).messages ≠ [] :=
  transcript_append_only_and_nonempty.2 []

/-- C10: the stockout table renders at most the first 6 fetched risk rows,
as a prefix of the fetched sequence (so in their original order); rows
beyond the sixth are never displayed. -/
theorem stockout_table_first_six (d : DashboardData) :
    (renderedStockoutRows d).length ≤ 6 ∧
    ∃ t, renderedStockoutRows d ++ t = d.stockoutRisks := by
  refine ⟨?_, d.stockoutRisks.drop 6, ?_⟩
  · simp [renderedStockoutRows]
  · simp [renderedStockoutRows]

/-- Witness for C10 at the initial dashboard state. -/
theorem stockout_table_first_six_witness :
    (renderedStockoutRows initialDashboardData).length ≤ 6 :=
  (stockout_table_first_six initialDashboardData).1

end HugoDemo
